import Mathlib

/-!
Shallow embedding of the CPS resource-management examples (Go): the
scoped-resource combinators from `resource_management_file.go` and
`resource_management_sql.go`, and the balanced spawner built on
`sync.WaitGroup`.

External collaborator primitives (`os.OpenFile`, `file.Write`, `file.Close`,
`ioutil.TempFile`, `os.Remove`, `sql.Open`, `db.Close`, `db.Begin`,
`tx.Commit`, `tx.Rollback`, `tx.Query`, `rows.Close`) are modelled as a
per-invocation oracle (a `structure` of outcome functions): the combinators
only sequence those primitives, so their behaviour is a function of the
oracular outcomes. Each embedded function returns the Go return value
together with the trace of primitive calls it performed, in call order, so
that call-count and call-order claims can be stated about the trace.
Errors (Go `error`) are `Option E` with `none` for `nil`; fallible
handle-producing primitives are `Except E H`.
-/

/-- Outcomes of the external file-system primitives for one invocation.
The `write` oracle takes the call-site index inside one function body
(0 for the first write, 1 for the second) so that two syntactically
distinct write calls can have independent outcomes. -/
structure FileWorld (E H : Type) where
  openFile : String → Nat → Nat → Except E H
  write : H → String → Nat → Option E
  close : H → Option E
  tempFile : Except E H
  name : H → String
  remove : String → Option E

deriving instance DecidableEq for Except

/-- Trace events recording each file-system primitive call and its outcome. -/
inductive FileEv (E H : Type) where
  | openFile (path : String) (flags perm : Nat) (res : Except E H)
  | write (h : H) (content : String) (idx : Nat) (res : Option E)
  | close (h : H) (res : Option E)
  | tempFile (res : Except E H)
  | remove (nm : String) (res : Option E)
deriving DecidableEq

/-- Recognizer for `close` events, used to count release calls. -/
def FileEv.isClose {E H : Type} : FileEv E H → Bool
  | .close _ _ => true
  | _ => false

/-- Recognizer for `remove` (file deletion) events. -/
def FileEv.isRemove {E H : Type} : FileEv E H → Bool
  | .remove _ _ => true
  | _ => false

/-- Number of `close` (release) calls recorded in a trace. -/
def countClose {E H : Type} (t : List (FileEv E H)) : Nat :=
  t.countP FileEv.isClose

/-- Go constant `NewFileFlag = os.O_CREATE | os.O_WRONLY` (numeric value is
the platform constant; no claim depends on it). -/
def NewFileFlag : Nat := 65

/-- Go constant `OwnerRWOnly os.FileMode = 0600`. -/
def OwnerRWOnly : Nat := 384

/-- Go type `FileResourceCallback = func (fd *os.File) error`, with the
trace of primitive calls the callback performs. -/
abbrev FileResourceCallback (E H : Type) := H → Option E × List (FileEv E H)

/-- Go type `FileResource = func(callback FileResourceCallback) error`. -/
abbrev FileResource (E H : Type) :=
  FileResourceCallback E H → Option E × List (FileEv E H)

/-- Embedding of `NewFileResource` (resource_management_file.go:109-129):
open the file; on open failure return that error; otherwise run the
callback; if the callback failed, still call `file.Close()` discarding its
result and return the callback error; otherwise return the result of
`file.Close()`. -/
def NewFileResource {E H : Type} (w : FileWorld E H)
    (path : String) (flags perm : Nat) : FileResource E H :=
  fun callback =>
    match w.openFile path flags perm with
    | .error e => (some e, [FileEv.openFile path flags perm (.error e)])
    | .ok file =>
      let r := callback file
      match r.1 with
      | some e =>
        (some e, FileEv.openFile path flags perm (.ok file)
          :: r.2 ++ [FileEv.close file (w.close file)])
      | none =>
        (w.close file, FileEv.openFile path flags perm (.ok file)
          :: r.2 ++ [FileEv.close file (w.close file)])

/-- Embedding of `TempFileResource` (resource_management_file.go:131-142):
create a temp file; on failure return that error; otherwise register
`defer file.Close()` then `defer os.Remove(file.Name())` and return
`callback(file)`. Go runs deferred calls in LIFO order, so on return the
remove runs first and the close second, and the results of both deferred
calls are discarded. -/
def TempFileResource {E H : Type} (w : FileWorld E H) : FileResource E H :=
  fun callback =>
    match w.tempFile with
    | .error e => (some e, [FileEv.tempFile (.error e)])
    | .ok file =>
      let r := callback file
      (r.1, FileEv.tempFile (.ok file)
        :: r.2 ++ [FileEv.remove (w.name file) (w.remove (w.name file)),
                   FileEv.close file (w.close file)])

/-- Embedding of `writeFile1_WithErrorHandling`
(resource_management_file.go:32-52). The Go function opens the file,
registers a deferred closure that closes the file and assigns
`err = closeErr` when `err == nil`, then performs two writes. Its result
parameter is UNNAMED, so under Go semantics the deferred closure mutates
only the local variable `err` after the return value has already been
copied out: the close error can never reach the caller. The close call
itself still happens on every post-open path. -/
def writeFile1_WithErrorHandling {E H : Type} (w : FileWorld E H)
    (path content : String) : Option E × List (FileEv E H) :=
  match w.openFile path NewFileFlag OwnerRWOnly with
  | .error e => (some e, [FileEv.openFile path NewFileFlag OwnerRWOnly (.error e)])
  | .ok file =>
    match w.write file content 0 with
    | some e =>
      (some e, [FileEv.openFile path NewFileFlag OwnerRWOnly (.ok file),
                FileEv.write file content 0 (some e),
                FileEv.close file (w.close file)])
    | none =>
      (w.write file content 1,
       [FileEv.openFile path NewFileFlag OwnerRWOnly (.ok file),
        FileEv.write file content 0 none,
        FileEv.write file content 1 (w.write file content 1),
        FileEv.close file (w.close file)])

/-- Embedding of the callback literal inside `writeFile2`
(resource_management_file.go:71-79): write the content, return on error,
write the content again and return that result. -/
def writeFile2Callback {E H : Type} (w : FileWorld E H) (content : String) :
    FileResourceCallback E H :=
  fun file =>
    match w.write file content 0 with
    | some e => (some e, [FileEv.write file content 0 (some e)])
    | none =>
      (w.write file content 1,
       [FileEv.write file content 0 none,
        FileEv.write file content 1 (w.write file content 1)])

/-- Embedding of `writeFile2` (resource_management_file.go:69-81): the CPS
version, `NewFileResource(path, NewFileFlag, OwnerRWOnly)` applied to the
two-write callback. -/
def writeFile2 {E H : Type} (w : FileWorld E H) (path content : String) :
    Option E × List (FileEv E H) :=
  NewFileResource w path NewFileFlag OwnerRWOnly (writeFile2Callback w content)

/-- Outcomes of the external SQL-driver primitives for one invocation. -/
structure SQLWorld (E DB TX RS : Type) where
  sqlOpen : String → String → Except E DB
  dbClose : DB → Option E
  beginTx : DB → Except E TX
  commit : TX → Option E
  rollback : TX → Option E
  query : TX → String → List String → Except E RS
  rowsClose : RS → Option E

/-- Trace events recording each SQL primitive call and its outcome. -/
inductive SqlEv (E DB TX RS : Type) where
  | sqlOpen (driver ds : String) (res : Except E DB)
  | dbClose (db : DB) (res : Option E)
  | beginTx (db : DB) (res : Except E TX)
  | commit (tx : TX) (res : Option E)
  | rollback (tx : TX) (res : Option E)
  | query (tx : TX) (q : String) (args : List String) (res : Except E RS)
  | rowsClose (rs : RS) (res : Option E)
deriving DecidableEq

/-- Recognizer for `commit` events. -/
def SqlEv.isCommit {E DB TX RS : Type} : SqlEv E DB TX RS → Bool
  | .commit _ _ => true
  | _ => false

/-- Recognizer for `rollback` events. -/
def SqlEv.isRollback {E DB TX RS : Type} : SqlEv E DB TX RS → Bool
  | .rollback _ _ => true
  | _ => false

/-- Recognizer for `rows.Close()` events. -/
def SqlEv.isRowsClose {E DB TX RS : Type} : SqlEv E DB TX RS → Bool
  | .rowsClose _ _ => true
  | _ => false

/-- Number of `rows.Close()` calls recorded in a trace. -/
def countRowsClose {E DB TX RS : Type} (t : List (SqlEv E DB TX RS)) : Nat :=
  t.countP SqlEv.isRowsClose

/-- Number of `tx.Commit()` calls recorded in a trace. -/
def countCommit {E DB TX RS : Type} (t : List (SqlEv E DB TX RS)) : Nat :=
  t.countP SqlEv.isCommit

/-- Number of `tx.Rollback()` calls recorded in a trace. -/
def countRollback {E DB TX RS : Type} (t : List (SqlEv E DB TX RS)) : Nat :=
  t.countP SqlEv.isRollback

/-- Go type `DBResource` (resource_management_sql.go:53-55): a struct whose
single field `Use` runs a callback against an acquired database handle. -/
structure DBResource (E DB TX RS : Type) where
  Use : (DB → Option E × List (SqlEv E DB TX RS)) → Option E × List (SqlEv E DB TX RS)

/-- Go type `TxResource` (resource_management_sql.go:75-77). -/
structure TxResource (E DB TX RS : Type) where
  Use : (TX → Option E × List (SqlEv E DB TX RS)) → Option E × List (SqlEv E DB TX RS)

/-- Go type `RowsResource` (resource_management_sql.go:97-99). -/
structure RowsResource (E DB TX RS : Type) where
  Use : (RS → Option E × List (SqlEv E DB TX RS)) → Option E × List (SqlEv E DB TX RS)

/-- Embedding of `NewDBResource` (resource_management_sql.go:57-73):
`sql.Open`; on failure return the error; otherwise run the callback; if it
failed, call `db.Close()` discarding its result and return the callback
error; otherwise return the result of `db.Close()`. -/
def NewDBResource {E DB TX RS : Type} (w : SQLWorld E DB TX RS)
    (driverName datasourceName : String) : DBResource E DB TX RS :=
  ⟨fun callback =>
    match w.sqlOpen driverName datasourceName with
    | .error e => (some e, [SqlEv.sqlOpen driverName datasourceName (.error e)])
    | .ok db =>
      let r := callback db
      match r.1 with
      | some e =>
        (some e, SqlEv.sqlOpen driverName datasourceName (.ok db)
          :: r.2 ++ [SqlEv.dbClose db (w.dbClose db)])
      | none =>
        (w.dbClose db, SqlEv.sqlOpen driverName datasourceName (.ok db)
          :: r.2 ++ [SqlEv.dbClose db (w.dbClose db)])⟩

/-- Embedding of `RunTransaction` (resource_management_sql.go:79-95):
`db.Begin()`; on failure return the error; otherwise run the callback; if
it failed, call `tx.Rollback()` discarding its result and return the
callback error; otherwise return the result of `tx.Commit()`. -/
def RunTransaction {E DB TX RS : Type} (w : SQLWorld E DB TX RS)
    (db : DB) : TxResource E DB TX RS :=
  ⟨fun callback =>
    match w.beginTx db with
    | .error e => (some e, [SqlEv.beginTx db (.error e)])
    | .ok tx =>
      let r := callback tx
      match r.1 with
      | some e =>
        (some e, SqlEv.beginTx db (.ok tx)
          :: r.2 ++ [SqlEv.rollback tx (w.rollback tx)])
      | none =>
        (w.commit tx, SqlEv.beginTx db (.ok tx)
          :: r.2 ++ [SqlEv.commit tx (w.commit tx)])⟩

/-- Embedding of `QueryRows` (resource_management_sql.go:101-117):
`tx.Query(query, args...)`; on failure return the error; otherwise run the
callback; if it failed, call `rows.Close()` discarding its result and
return the callback error; otherwise return the result of `rows.Close()`. -/
def QueryRows {E DB TX RS : Type} (w : SQLWorld E DB TX RS)
    (tx : TX) (q : String) (args : List String) : RowsResource E DB TX RS :=
  ⟨fun callback =>
    match w.query tx q args with
    | .error e => (some e, [SqlEv.query tx q args (.error e)])
    | .ok rows =>
      let r := callback rows
      match r.1 with
      | some e =>
        (some e, SqlEv.query tx q args (.ok rows)
          :: r.2 ++ [SqlEv.rowsClose rows (w.rowsClose rows)])
      | none =>
        (w.rowsClose rows, SqlEv.query tx q args (.ok rows)
          :: r.2 ++ [SqlEv.rowsClose rows (w.rowsClose rows)])⟩

/-- Outcome of running one submitted task body: either it returns
normally, or its execution terminates abnormally (an unrecovered Go panic
unwinds the goroutine, skipping every statement after the task call). -/
inductive TaskOutcome where
  | normal
  | abnormal
deriving DecidableEq

/-- Counter traffic performed by one `safeWaitGroupImpl.Run` call together
with the goroutine it spawns. -/
structure RunAccounting where
  increments : Nat
  decrements : Nat
deriving DecidableEq

/-- Embedding of `safeWaitGroupImpl.Run` (resource_management_sql.go:138-144):
`swg.wg.Add(1)` runs first, then the goroutine body executes
`task()` followed by `swg.wg.Add(-1)`. The decrement is a plain sequential
statement, not a deferred call, so it runs only when `task()` returns
normally; on abnormal termination of the task the goroutine unwinds past
it. -/
def safeWaitGroupRun (out : TaskOutcome) : RunAccounting :=
  match out with
  | .normal => { increments := 1, decrements := 1 }
  | .abnormal => { increments := 1, decrements := 0 }

/-- Configuration of one balanced-spawner episode: `toSubmit` are the tasks
the main context has not yet passed to `Run`, `counter` is the
`sync.WaitGroup` counter, `pending` are spawned goroutines that have not
finished, `shared` is the state the tasks mutate, and `log` lists finished
tasks in completion order. Tasks are data of type `T` interpreted by an
`app : T → S → S` semantics. -/
structure SpCfg (T S : Type) where
  toSubmit : List T
  counter : Int
  pending : List T
  shared : S
  log : List T

/-- Interleaved small-step semantics of the spawner episode: `submit` is
one `Run` call by the main context (`wg.Add(1)` then the goroutine is
spawned); `finish` is the completion of any one pending goroutine (its
task body runs, then `wg.Add(-1)`). -/
inductive SpStep {T S : Type} (app : T → S → S) : SpCfg T S → SpCfg T S → Prop where
  | submit (t : T) (ts : List T) (c : Int) (p : List T) (s : S) (l : List T) :
      SpStep app ⟨t :: ts, c, p, s, l⟩ ⟨ts, c + 1, p ++ [t], s, l⟩
  | finish (ts : List T) (c : Int) (pre : List T) (t : T) (post : List T)
      (s : S) (l : List T) :
      SpStep app ⟨ts, c, pre ++ t :: post, s, l⟩
        ⟨ts, c - 1, pre ++ post, app t s, l ++ [t]⟩

/-- Zero or more interleaved spawner steps. -/
inductive SpReach {T S : Type} (app : T → S → S) : SpCfg T S → SpCfg T S → Prop where
  | refl (c : SpCfg T S) : SpReach app c c
  | head {a b c : SpCfg T S} : SpStep app a b → SpReach app b c → SpReach app a c

/-- String of `n` asterisks, the payload written by task `n` in the
README fan-out example (`strings.Repeat("*", i)`). -/
def stars (n : Nat) : String := String.mk (List.replicate n (Char.ofNat 42))

/-- Task semantics of the README example (README.md:406-411): task `i`
writes `stars i` into slot `i` of the shared slice. -/
def starApply (i : Nat) (s : List String) : List String := s.set i (stars i)

/-- C1: for every invocation of the scoped resources made by
`NewFileResource`, `NewDBResource`, and `QueryRows` in which acquisition
succeeds, the returned error is the work-callback error if there is one
(the release error being discarded, though release is still attempted and
appears in the trace), otherwise the release error if there is one,
otherwise none. `x <|> y` on `Option` is exactly this policy. -/
theorem scoped_error_policy
    {E H DB TX RS : Type}
    (wF : FileWorld E H) (p : String) (fl pm : Nat)
    (cbF : FileResourceCallback E H) (h : H)
    (wS : SQLWorld E DB TX RS) (dn ds : String)
    (cbD : DB → Option E × List (SqlEv E DB TX RS)) (db : DB)
    (tx : TX) (q : String) (args : List String)
    (cbR : RS → Option E × List (SqlEv E DB TX RS)) (rs : RS)
    (hOpen : wF.openFile p fl pm = .ok h)
    (hSql : wS.sqlOpen dn ds = .ok db)
    (hQry : wS.query tx q args = .ok rs) :
    ((NewFileResource wF p fl pm cbF).1 = ((cbF h).1 <|> wF.close h)
      ∧ FileEv.close h (wF.close h) ∈ (NewFileResource wF p fl pm cbF).2)
    ∧ (((NewDBResource wS dn ds).Use cbD).1 = ((cbD db).1 <|> wS.dbClose db)
      ∧ SqlEv.dbClose db (wS.dbClose db) ∈ ((NewDBResource wS dn ds).Use cbD).2)
    ∧ (((QueryRows wS tx q args).Use cbR).1 = ((cbR rs).1 <|> wS.rowsClose rs)
      ∧ SqlEv.rowsClose rs (wS.rowsClose rs) ∈ ((QueryRows wS tx q args).Use cbR).2) := by
  refine ⟨⟨?_, ?_⟩, ⟨?_, ?_⟩, ⟨?_, ?_⟩⟩ <;>
    simp only [NewFileResource, NewDBResource, QueryRows, hOpen, hSql, hQry] <;>
    rcases hc : (cbF h).1 with _ | e <;>
    rcases hd : (cbD db).1 with _ | e' <;>
    rcases hr : (cbR rs).1 with _ | e'' <;>
    simp [hc, hd, hr]

/-- Concrete oracle used by the witnesses: every file primitive succeeds,
with `Nat` errors and handles. -/
def fwOk : FileWorld Nat Nat :=
  { openFile := fun _ _ _ => .ok 0
    write := fun _ _ _ => none
    close := fun _ => none
    tempFile := .ok 0
    name := fun _ => "tmp0"
    remove := fun _ => none }

/-- Concrete SQL oracle used by the witnesses: every primitive succeeds,
with `Nat` errors and handles. -/
def swOk : SQLWorld Nat Nat Nat Nat :=
  { sqlOpen := fun _ _ => .ok 0
    dbClose := fun _ => none
    beginTx := fun _ => .ok 0
    commit := fun _ => none
    rollback := fun _ => none
    query := fun _ _ _ => .ok 0
    rowsClose := fun _ => none }

/-- Callback that does nothing and succeeds, over the file oracle. -/
def cbFNone : FileResourceCallback Nat Nat := fun _ => (none, [])

/-- Callback that does nothing and succeeds, over the SQL oracle. -/
def cbSNone : Nat → Option Nat × List (SqlEv Nat Nat Nat Nat) := fun _ => (none, [])

/-- Witness for C1 at the all-success oracle. -/
theorem scoped_error_policy_witness :
    ((NewFileResource fwOk "p" 0 0 cbFNone).1 = ((cbFNone 0).1 <|> fwOk.close 0)
      ∧ FileEv.close 0 (fwOk.close 0) ∈ (NewFileResource fwOk "p" 0 0 cbFNone).2)
    ∧ (((NewDBResource swOk "d" "s").Use cbSNone).1 = ((cbSNone 0).1 <|> swOk.dbClose 0)
      ∧ SqlEv.dbClose 0 (swOk.dbClose 0) ∈ ((NewDBResource swOk "d" "s").Use cbSNone).2)
    ∧ (((QueryRows swOk 0 "q" []).Use cbSNone).1 = ((cbSNone 0).1 <|> swOk.rowsClose 0)
      ∧ SqlEv.rowsClose 0 (swOk.rowsClose 0) ∈ ((QueryRows swOk 0 "q" []).Use cbSNone).2) :=
  scoped_error_policy fwOk "p" 0 0 cbFNone 0 swOk "d" "s" cbSNone 0 0 "q" [] cbSNone 0
    rfl rfl rfl

/-- C2: an invocation of `NewFileResource` adds exactly one `close` call to
whatever the callback itself performed when the open succeeded, and
performs no `close` call when the open failed; likewise `QueryRows` for
`rows.Close()`. So the release of the acquired handle runs exactly once
iff acquisition succeeded, even when the work callback fails. -/
theorem scoped_release_exactly_once
    {E H DB TX RS : Type} :
    (∀ (wF : FileWorld E H) (p : String) (fl pm : Nat)
        (cbF : FileResourceCallback E H),
      countClose (NewFileResource wF p fl pm cbF).2 =
        match wF.openFile p fl pm with
        | .ok h => countClose (cbF h).2 + 1
        | .error _ => 0)
    ∧ (∀ (wS : SQLWorld E DB TX RS) (tx : TX) (q : String) (args : List String)
        (cbR : RS → Option E × List (SqlEv E DB TX RS)),
      countRowsClose ((QueryRows wS tx q args).Use cbR).2 =
        match wS.query tx q args with
        | .ok rs => countRowsClose (cbR rs).2 + 1
        | .error _ => 0) := by
  constructor
  · intro wF p fl pm cbF
    rcases ho : wF.openFile p fl pm with e | h
    · simp [NewFileResource, ho, countClose, FileEv.isClose]
    · rcases hc : (cbF h).1 with _ | e <;>
        simp [NewFileResource, ho, hc, countClose, FileEv.isClose]
  · intro wS tx q args cbR
    rcases hq : wS.query tx q args with e | rs
    · simp [QueryRows, hq, countRowsClose, SqlEv.isRowsClose]
    · rcases hc : (cbR rs).1 with _ | e <;>
        simp [QueryRows, hq, hc, countRowsClose, SqlEv.isRowsClose]

/-- C7: when the acquire step fails, `NewFileResource` and `RunTransaction`
return exactly the acquisition error with a trace holding only the failed
acquire call: the work callback contributes nothing (the result does not
depend on it) and no release call is recorded. -/
theorem scoped_acquire_failure
    {E H DB TX RS : Type}
    (wF : FileWorld E H) (p : String) (fl pm : Nat)
    (cbF : FileResourceCallback E H) (e : E)
    (wS : SQLWorld E DB TX RS) (db : DB)
    (cbT : TX → Option E × List (SqlEv E DB TX RS)) (e' : E)
    (hOpen : wF.openFile p fl pm = .error e)
    (hBeg : wS.beginTx db = .error e') :
    NewFileResource wF p fl pm cbF = (some e, [FileEv.openFile p fl pm (.error e)])
    ∧ (RunTransaction wS db).Use cbT = (some e', [SqlEv.beginTx db (.error e')]) := by
  constructor
  · simp [NewFileResource, hOpen]
  · simp [RunTransaction, hBeg]

/-- Concrete file oracle whose open fails with error 7. -/
def fwOpenFail : FileWorld Nat Nat :=
  { fwOk with openFile := fun _ _ _ => .error 7 }

/-- Concrete SQL oracle whose begin fails with error 9. -/
def swBeginFail : SQLWorld Nat Nat Nat Nat :=
  { swOk with beginTx := fun _ => .error 9 }

/-- Witness for C7 at oracles whose acquire steps fail. -/
theorem scoped_acquire_failure_witness :
    NewFileResource fwOpenFail "p" 0 0 cbFNone
      = (some 7, [FileEv.openFile "p" 0 0 (.error 7)])
    ∧ (RunTransaction swBeginFail 0).Use cbSNone
      = (some 9, [SqlEv.beginTx 0 (.error 9)]) :=
  scoped_acquire_failure fwOpenFail "p" 0 0 cbFNone 7 swBeginFail 0 cbSNone 9 rfl rfl

/-- C6: when `db.Begin()` succeeds, `RunTransaction` returns the callback
error if there is one and otherwise the result of `tx.Commit()` (so a
commit failure is surfaced even though the work succeeded); it adds
exactly one rollback call and no commit call when the callback failed, and
exactly one commit call and no rollback call when the callback
succeeded. -/
theorem runTransaction_policy
    {E DB TX RS : Type}
    (wS : SQLWorld E DB TX RS) (db : DB) (tx : TX)
    (cbT : TX → Option E × List (SqlEv E DB TX RS))
    (hBeg : wS.beginTx db = .ok tx) :
    ((RunTransaction wS db).Use cbT).1 = ((cbT tx).1 <|> wS.commit tx)
    ∧ countRollback ((RunTransaction wS db).Use cbT).2 =
        countRollback (cbT tx).2 + (if (cbT tx).1.isSome then 1 else 0)
    ∧ countCommit ((RunTransaction wS db).Use cbT).2 =
        countCommit (cbT tx).2 + (if (cbT tx).1.isSome then 0 else 1) := by
  rcases hc : (cbT tx).1 with _ | e <;>
    refine ⟨?_, ?_, ?_⟩ <;>
    simp [RunTransaction, hBeg, hc, countRollback, countCommit,
      SqlEv.isRollback, SqlEv.isCommit]

/-- Witness for C6 at the all-success SQL oracle with the trivial
callback. -/
theorem runTransaction_policy_witness :
    ((RunTransaction swOk 0).Use cbSNone).1 = ((cbSNone 0).1 <|> swOk.commit 0)
    ∧ countRollback ((RunTransaction swOk 0).Use cbSNone).2 =
        countRollback (cbSNone 0).2 + (if (cbSNone 0).1.isSome then 1 else 0)
    ∧ countCommit ((RunTransaction swOk 0).Use cbSNone).2 =
        countCommit (cbSNone 0).2 + (if (cbSNone 0).1.isSome then 0 else 1) :=
  runTransaction_policy swOk 0 0 cbSNone rfl

/-- Concrete file oracle whose close fails with error 5 and all other
primitives succeed. -/
def fwCloseFail : FileWorld Nat Nat :=
  { fwOk with close := fun _ => some 5 }

/-- Counterexample to C4 as stated: in a concrete successful invocation of
`TempFileResource` (work callback trivial, close failing), the first
`remove` call sits at index 1 of the trace and the first `close` call at
index 2, so the release step deletes the temp file BEFORE closing the
handle — Go runs the two deferred calls in LIFO order — not close first
as claimed. -/
theorem tempFileRelease_order_cex :
    (TempFileResource fwCloseFail cbFNone).2.findIdx? FileEv.isRemove = some 1
    ∧ (TempFileResource fwCloseFail cbFNone).2.findIdx? FileEv.isClose = some 2 := by
  constructor <;> rfl

/-- C4 amended: when temp-file creation succeeds the trace is exactly the
successful creation, the callback trace, then the `os.Remove` call and
then the `file.Close()` call — delete first, close second, each attempted
once regardless of the callback result and of the other call's result
(both events carry whatever outcome the oracle assigns them). -/
theorem tempFileRelease_order
    {E H : Type} (w : FileWorld E H) (cb : FileResourceCallback E H) (h : H)
    (hTmp : w.tempFile = .ok h) :
    (TempFileResource w cb).2 =
      FileEv.tempFile (.ok h)
        :: (cb h).2 ++ [FileEv.remove (w.name h) (w.remove (w.name h)),
                        FileEv.close h (w.close h)] := by
  simp [TempFileResource, hTmp]

/-- Witness for the amended C4 at a concrete oracle. -/
theorem tempFileRelease_order_witness :
    (TempFileResource fwCloseFail cbFNone).2 =
      FileEv.tempFile (.ok 0)
        :: (cbFNone 0).2 ++ [FileEv.remove (fwCloseFail.name 0) (fwCloseFail.remove (fwCloseFail.name 0)),
                             FileEv.close 0 (fwCloseFail.close 0)] :=
  tempFileRelease_order fwCloseFail cbFNone 0 rfl

/-- Counterexample to C5 as stated: in a concrete invocation of
`TempFileResource` where creation succeeds, the work callback succeeds and
the close fails with error 5, the invocation returns no error instead of
the release error: both deferred release calls discard their results. -/
theorem tempFileReleaseError_cex :
    (TempFileResource fwCloseFail cbFNone).1 = none
    ∧ fwCloseFail.close 0 = some 5 := by
  constructor <;> rfl

/-- C5 amended: when temp-file creation succeeds, `TempFileResource`
returns exactly the callback result; failures of the deferred release
calls (remove and close) are never observable in the return value. -/
theorem tempFileReturnsCallbackError
    {E H : Type} (w : FileWorld E H) (cb : FileResourceCallback E H) (h : H)
    (hTmp : w.tempFile = .ok h) :
    (TempFileResource w cb).1 = (cb h).1 := by
  simp [TempFileResource, hTmp]

/-- Witness for the amended C5 at a concrete failing-close oracle. -/
theorem tempFileReturnsCallbackError_witness :
    (TempFileResource fwCloseFail cbFNone).1 = (cbFNone 0).1 :=
  tempFileReturnsCallbackError fwCloseFail cbFNone 0 rfl

/-- Counterexample to C3 as stated: when the submitted task terminates
abnormally, the increment performed by `Run` is NOT matched by a
decrement: the goroutine body decrements with a plain statement after
`task()`, not with a deferred call, so an abnormal exit of the task skips
it. -/
theorem safeWaitGroupRun_abnormal_cex :
    (safeWaitGroupRun TaskOutcome.abnormal).increments = 1
    ∧ (safeWaitGroupRun TaskOutcome.abnormal).decrements = 0 := by
  constructor <;> rfl

/-- C3 amended: every `Run` call performs exactly one increment, and that
increment is matched by exactly one decrement precisely when the task
completes normally; on abnormal termination of the task no decrement
runs. -/
theorem safeWaitGroupRun_accounting (out : TaskOutcome) :
    (safeWaitGroupRun out).increments = 1
    ∧ ((safeWaitGroupRun out).decrements = 1 ↔ out = TaskOutcome.normal) := by
  cases out <;> simp [safeWaitGroupRun]

/-- C10: `writeFile1_WithErrorHandling` and `writeFile2` always perform the
same sequence of file operations (first conjunct, over every oracle), but
they are NOT equivalent on return values: at an oracle where the open and
both writes succeed and `file.Close()` fails with error 5,
`writeFile1_WithErrorHandling` returns no error — its result parameter is
unnamed, so the `err = closeErr` assignment inside the deferred closure
cannot reach the caller, contradicting the comment on its own line 51 —
while `writeFile2` returns the close error. -/
theorem writeFile_divergence :
    (∀ (E H : Type) (w : FileWorld E H) (p c : String),
      (writeFile1_WithErrorHandling w p c).2 = (writeFile2 w p c).2)
    ∧ (writeFile1_WithErrorHandling fwCloseFail "p" "c").1 = none
    ∧ (writeFile2 fwCloseFail "p" "c").1 = some 5 := by
  refine ⟨?_, rfl, rfl⟩
  intro E H w p c
  rcases ho : w.openFile p NewFileFlag OwnerRWOnly with e | f
  · simp [writeFile1_WithErrorHandling, writeFile2, NewFileResource, ho]
  · rcases h0 : w.write f c 0 with _ | e0
    · rcases h1 : w.write f c 1 with _ | e1 <;>
        simp [writeFile1_WithErrorHandling, writeFile2, NewFileResource,
          writeFile2Callback, ho, h0, h1]
    · simp [writeFile1_WithErrorHandling, writeFile2, NewFileResource,
        writeFile2Callback, ho, h0]

/-- C8: scoped invocations nest as fully contained acquire/release cycles.
First conjunct: a successful `NewFileResource` invocation brackets the
whole callback trace — and so any inner invocation the callback runs —
between its own acquire event and its own release event. Second and third
conjuncts: in the README double-temp-file nesting (`TempFileResource`
invoked inside its own callback, README.md:438-447), the entire inner
invocation trace, itself a complete acquire/callback/release cycle on its
own handle, sits after the outer acquisition and before the outer release
calls: the inner resource is released before the outer callback returns
and the outer resource after. -/
theorem nested_scope_containment
    {E H : Type}
    (wF : FileWorld E H) (p : String) (fl pm : Nat)
    (cb : FileResourceCallback E H) (h : H)
    (w1 w2 : FileWorld E H) (cb2 : H → FileResourceCallback E H) (h1 h2 : H)
    (hOpen : wF.openFile p fl pm = .ok h)
    (hT1 : w1.tempFile = .ok h1)
    (hT2 : w2.tempFile = .ok h2) :
    ((NewFileResource wF p fl pm cb).2 =
      FileEv.openFile p fl pm (.ok h) :: (cb h).2 ++ [FileEv.close h (wF.close h)])
    ∧ ((TempFileResource w1 (fun fd1 => TempFileResource w2 (cb2 fd1))).2 =
      FileEv.tempFile (.ok h1)
        :: (TempFileResource w2 (cb2 h1)).2
        ++ [FileEv.remove (w1.name h1) (w1.remove (w1.name h1)),
            FileEv.close h1 (w1.close h1)])
    ∧ ((TempFileResource w2 (cb2 h1)).2 =
      FileEv.tempFile (.ok h2)
        :: (cb2 h1 h2).2
        ++ [FileEv.remove (w2.name h2) (w2.remove (w2.name h2)),
            FileEv.close h2 (w2.close h2)]) := by
  refine ⟨?_, ?_, ?_⟩
  · rcases hc : (cb h).1 with _ | e <;> simp [NewFileResource, hOpen, hc]
  · simp [TempFileResource, hT1]
  · simp [TempFileResource, hT2]

/-- Trivially succeeding inner callback for the nesting witness, closing
over the outer handle as in the README example. -/
def cbNest : Nat → FileResourceCallback Nat Nat := fun _ _ => (none, [])

/-- Witness for C8 at the all-success oracle, nesting `TempFileResource`
inside itself. -/
theorem nested_scope_containment_witness :
    ((NewFileResource fwOk "p" 0 0 cbFNone).2 =
      FileEv.openFile "p" 0 0 (.ok 0) :: (cbFNone 0).2 ++ [FileEv.close 0 (fwOk.close 0)])
    ∧ ((TempFileResource fwOk (fun fd1 => TempFileResource fwOk (cbNest fd1))).2 =
      FileEv.tempFile (.ok 0)
        :: (TempFileResource fwOk (cbNest 0)).2
        ++ [FileEv.remove (fwOk.name 0) (fwOk.remove (fwOk.name 0)),
            FileEv.close 0 (fwOk.close 0)])
    ∧ ((TempFileResource fwOk (cbNest 0)).2 =
      FileEv.tempFile (.ok 0)
        :: (cbNest 0 0).2
        ++ [FileEv.remove (fwOk.name 0) (fwOk.remove (fwOk.name 0)),
            FileEv.close 0 (fwOk.close 0)]) :=
  nested_scope_containment fwOk "p" 0 0 cbFNone 0 fwOk fwOk cbNest 0 0 rfl rfl rfl

/-- Invariant of a spawner episode that started from task list `tasks0`
and shared state `init0`: the counter equals the number of unfinished
goroutines, the finished, pending and unsubmitted tasks together are a
permutation of the original batch, and the shared state is the fold of
the finished tasks in completion order. -/
def SpInv {T S : Type} (app : T → S → S) (tasks0 : List T) (init0 : S)
    (c : SpCfg T S) : Prop :=
  c.counter = (c.pending.length : Int)
  ∧ (c.log ++ c.pending ++ c.toSubmit).Perm tasks0
  ∧ c.shared = c.log.foldl (fun s t => app t s) init0

/-- One spawner step preserves the episode invariant. -/
theorem spStep_inv {T S : Type} {app : T → S → S} {tasks0 : List T} {init0 : S}
    {a b : SpCfg T S} (hstep : SpStep app a b)
    (hinv : SpInv app tasks0 init0 a) : SpInv app tasks0 init0 b := by
  cases hstep with
  | submit t ts c p s l =>
    obtain ⟨h1, h2, h3⟩ := hinv
    dsimp only [SpInv] at h1 h2 h3 ⊢
    refine ⟨?_, ?_, ?_⟩
    · simp only [List.length_append, List.length_cons, List.length_nil] at h1 ⊢
      omega
    · refine List.Perm.trans ?_ h2
      simp only [List.append_assoc, List.cons_append, List.singleton_append,
        List.nil_append]
      exact List.Perm.refl _
    · exact h3
  | finish ts c pre t post s l =>
    obtain ⟨h1, h2, h3⟩ := hinv
    dsimp only [SpInv] at h1 h2 h3 ⊢
    refine ⟨?_, ?_, ?_⟩
    · simp only [List.length_append, List.length_cons, List.length_nil] at h1 ⊢
      omega
    · refine List.Perm.trans ?_ h2
      simp only [List.append_assoc, List.cons_append, List.singleton_append,
        List.nil_append]
      exact List.Perm.append_left l List.perm_middle.symm
    · simp [h3, List.foldl_append]

/-- Reachability preserves the episode invariant. -/
theorem spReach_inv {T S : Type} {app : T → S → S} {tasks0 : List T} {init0 : S}
    {a b : SpCfg T S} (hr : SpReach app a b)
    (hinv : SpInv app tasks0 init0 a) : SpInv app tasks0 init0 b := by
  induction hr with
  | refl c => exact hinv
  | head hs _ ih => exact ih (spStep_inv hs hinv)

/-- Reachability is transitive. -/
theorem spReach_trans {T S : Type} {app : T → S → S} {a b c : SpCfg T S}
    (h1 : SpReach app a b) (h2 : SpReach app b c) : SpReach app a c := by
  induction h1 with
  | refl _ => exact h2
  | head hs _ ih => exact SpReach.head hs (ih h2)

/-- The main context can always submit its whole batch: `Run` never
blocks. -/
theorem spReach_submit_all {T S : Type} (app : T → S → S) (ts : List T) :
    ∀ (c : Int) (p : List T) (s : S) (l : List T),
      SpReach app ⟨ts, c, p, s, l⟩ ⟨[], c + (ts.length : Int), p ++ ts, s, l⟩ := by
  induction ts with
  | nil => intro c p s l; simpa using SpReach.refl (⟨[], c, p, s, l⟩ : SpCfg T S)
  | cons t ts ih =>
    intro c p s l
    refine SpReach.head (SpStep.submit t ts c p s l) ?_
    have h := ih (c + 1) (p ++ [t]) s l
    have h1 : c + 1 + (ts.length : Int) = c + ((t :: ts).length : Int) := by
      simp only [List.length_cons]; push_cast; ring
    have h2 : (p ++ [t]) ++ ts = p ++ t :: ts := by simp
    rw [h1, h2] at h
    exact h

/-- All pending goroutines can always run to completion, in queue order:
each one folds its task into the shared state, decrements the counter and
appends itself to the completion log. -/
theorem spReach_finish_all {T S : Type} (app : T → S → S) (p : List T) :
    ∀ (c : Int) (s : S) (l : List T),
      SpReach app ⟨[], c, p, s, l⟩
        ⟨[], c - (p.length : Int), [], p.foldl (fun s t => app t s) s, l ++ p⟩ := by
  induction p with
  | nil => intro c s l; simpa using SpReach.refl (⟨[], c, [], s, l⟩ : SpCfg T S)
  | cons t p ih =>
    intro c s l
    refine SpReach.head (SpStep.finish [] c [] t p s l) ?_
    have h := ih (c - 1) (app t s) (l ++ [t])
    have h1 : c - 1 - (p.length : Int) = c - ((t :: p).length : Int) := by
      simp only [List.length_cons]; push_cast; ring
    have h2 : (l ++ [t]) ++ p = l ++ t :: p := by simp
    rw [h1, h2] at h
    exact h

/-- Element lookup after a single `set`: slot `i` holds the new value when
it exists, every other slot is untouched. -/
theorem getElem?_set_general {α : Type} (s : List α) (i j : Nat) (x : α) :
    (s.set i x)[j]? = if i = j ∧ j < s.length then some x else s[j]? := by
  by_cases hij : i = j
  · subst hij
    by_cases hlt : i < s.length
    · simp [List.getElem?_set_eq_of_lt, hlt]
    · rw [List.set_eq_of_length_le (Nat.le_of_not_lt hlt)]
      simp [hlt]
  · simp [List.getElem?_set_ne hij, hij]

/-- Element lookup after folding a batch of star tasks over the shared
slice: slot `j` holds `stars j` when some task `j` was in the batch and
the slot exists; every other slot keeps its initial content. Distinct
tasks write distinct slots, so the completion order is irrelevant. -/
theorem foldl_starApply_getElem? (l : List Nat) :
    ∀ (s : List String) (j : Nat),
      (l.foldl (fun a i => starApply i a) s)[j]? =
        if j ∈ l then (if j < s.length then some (stars j) else none) else s[j]? := by
  induction l with
  | nil => intro s j; simp
  | cons a l ih =>
    intro s j
    simp only [List.foldl_cons, List.mem_cons]
    rw [ih]
    by_cases hjl : j ∈ l
    · simp [hjl, starApply, List.length_set]
    · by_cases hja : j = a
      · subst hja
        by_cases hlen : j < s.length
        · simp [hjl, starApply, getElem?_set_general, hlen]
        · simp [hjl, starApply, getElem?_set_general, hlen,
            List.getElem?_eq_none (Nat.le_of_not_lt hlen)]
      · have hne : a ≠ j := fun h => hja (Eq.symm h)
        simp [hjl, hja, starApply, getElem?_set_general, hne]

/-- Expected final slice of the README fan-out scenario:
`["", "*", "**", ..., "*********"]`. -/
def starTarget : List String := (List.range 10).map stars

/-- Folding the ten star tasks over the empty ten-slot slice yields the
target slice whatever the completion order. -/
theorem foldl_star_perm (l : List Nat) (hl : l.Perm (List.range 10)) :
    l.foldl (fun a i => starApply i a) (List.replicate 10 "") = starTarget := by
  refine List.ext_getElem? ?_
  intro j
  rw [foldl_starApply_getElem?]
  have hmem : j ∈ l ↔ j < 10 := by
    rw [hl.mem_iff, List.mem_range]
  by_cases hj : j < 10
  · simp [hmem, hj, starTarget, List.getElem?_range]
  · have hge : (10:Nat) ≤ j := Nat.le_of_not_lt hj
    simp [hmem, hj, starTarget, List.getElem?_eq_none, hge]

/-- Completion lemma for a spawner episode: once the main context has
submitted its whole batch and `Wait` has observed a zero counter, no
goroutine is pending, the completion log is a permutation of the batch and
the shared state is the fold of the completed tasks. -/
theorem spWait_complete {T S : Type} (app : T → S → S) (tasks0 : List T)
    (init0 : S) (cfg : SpCfg T S)
    (hr : SpReach app ⟨tasks0, 0, [], init0, []⟩ cfg)
    (hts : cfg.toSubmit = []) (hc : cfg.counter = 0) :
    cfg.pending = [] ∧ cfg.log.Perm tasks0
      ∧ cfg.shared = cfg.log.foldl (fun s t => app t s) init0 := by
  have hinit : SpInv app tasks0 init0 ⟨tasks0, 0, [], init0, []⟩ :=
    ⟨by simp, by simp, rfl⟩
  obtain ⟨h1, h2, h3⟩ := spReach_inv hr hinit
  have hlen0 : (cfg.pending.length : Int) = 0 := h1.symm.trans hc
  have hlen : cfg.pending.length = 0 := by exact_mod_cast hlen0
  have hp : cfg.pending = [] := List.eq_nil_of_length_eq_zero hlen
  refine ⟨hp, ?_, h3⟩
  rw [hp, hts] at h2
  simpa using h2

/-- C9: first conjunct, for any batch of N tasks: in every interleaved
execution in which the main context has submitted all N tasks and `Wait`
has returned (counter back to zero), no task is still pending, the
completed tasks are exactly the N submitted ones, and the shared state is
the fold of all of them; so all N tasks completed before `Wait` returned.
Second conjunct, the concrete README scenario: ten tasks, task `i` writing
`stars i` into slot `i` of a ten-slot slice, leave the slice equal to
`["", "*", ..., "*********"]` whatever the completion order. -/
theorem balancedSpawner_wait :
    (∀ (T S : Type) (app : T → S → S) (tasks0 : List T) (init0 : S)
        (cfg : SpCfg T S),
      SpReach app ⟨tasks0, 0, [], init0, []⟩ cfg →
      cfg.toSubmit = [] → cfg.counter = 0 →
      cfg.pending = [] ∧ cfg.log.Perm tasks0
        ∧ cfg.shared = cfg.log.foldl (fun s t => app t s) init0)
    ∧ (∀ cfg : SpCfg Nat (List String),
      SpReach starApply ⟨List.range 10, 0, [], List.replicate 10 "", []⟩ cfg →
      cfg.toSubmit = [] → cfg.counter = 0 →
      cfg.pending = [] ∧ cfg.shared = starTarget) := by
  constructor
  · intro T S app tasks0 init0 cfg hr hts hc
    exact spWait_complete app tasks0 init0 cfg hr hts hc
  · intro cfg hr hts hc
    obtain ⟨hp, hperm, hsh⟩ :=
      spWait_complete starApply (List.range 10) (List.replicate 10 "") cfg hr hts hc
    refine ⟨hp, ?_⟩
    rw [hsh]
    exact foldl_star_perm cfg.log hperm

/-- Final configuration of one concrete complete schedule of the README
scenario: submit all ten tasks, then let the ten goroutines finish in
queue order. -/
def spFinalCfg : SpCfg Nat (List String) :=
  ⟨[], 0 + ((List.range 10).length : Int) - ((([] : List Nat) ++ List.range 10).length : Int),
   [],
   (([] : List Nat) ++ List.range 10).foldl (fun s t => starApply t s) (List.replicate 10 ""),
   ([] : List Nat) ++ (([] : List Nat) ++ List.range 10)⟩

/-- Witness for C9: the concrete schedule reaches a wait-returned
configuration whose slice is the target. -/
theorem balancedSpawner_wait_witness :
    spFinalCfg.pending = [] ∧ spFinalCfg.shared = starTarget :=
  balancedSpawner_wait.2 spFinalCfg
    (spReach_trans
      (spReach_submit_all starApply (List.range 10) 0 [] (List.replicate 10 "") [])
      (spReach_finish_all starApply (([] : List Nat) ++ List.range 10)
        (0 + ((List.range 10).length : Int)) (List.replicate 10 "") []))
    rfl (by decide)
